import Mathlib

/-!
Verification development for the libMesh fragment consisting of
`include/systems/eigen_system.h` (the EigenSystem controller) and
`contrib/exodusii/Lib/src/exgatt.c` (the legacy exodus attribute reader
`ex_get_attr`).  Source functions are shallowly embedded as executable
Lean definitions; the theorems settle the spec claims about them.
-/

namespace Exodus

/-- Return status of an exodus API call: `EX_NOERR` (0), `EX_WARN` (positive),
`EX_FATAL` (negative), as used by `ex_get_attr` in exgatt.c. -/
inductive ExStatus where
  | EX_NOERR
  | EX_WARN
  | EX_FATAL
  deriving DecidableEq, Repr

/-- Value of the process-wide `exerrval` error code after a call, modelled
symbolically: cleared (0), `EX_BADPARAM`, `EX_NULLENTITY`, some other value set
by `ex_id_lkup`, or a netcdf `ncerr` value. -/
inductive ExErrVal where
  | cleared
  | EX_BADPARAM
  | EX_NULLENTITY
  | lkup (e : Int)
  | nc (e : Int)
  deriving DecidableEq, Repr

/-- Object type tag passed to `ex_get_attr` (a C `int`).  The eight values
recognized by the first switch in exgatt.c lines 76-114 get constructors; every
other integer value `c` is `EX_INVALID c` (the `default:` case). -/
inductive ExObjType where
  | EX_NODE_SET
  | EX_EDGE_SET
  | EX_FACE_SET
  | EX_ELEM_SET
  | EX_NODAL
  | EX_EDGE_BLOCK
  | EX_FACE_BLOCK
  | EX_ELEM_BLOCK
  | EX_INVALID (c : Int)
  deriving DecidableEq, Repr

/-- Result of `ex_id_lkup(exoid, vobjids, obj_id)`: an index on success, or an
error (`exerrval = EX_NULLENTITY` for a null entity, some other nonzero
`exerrval` otherwise), as tested at exgatt.c lines 122-137. -/
inductive IdLkupResult where
  | found (ndx : Int)
  | nullEntity
  | failed (errval : Int)
  deriving DecidableEq, Repr

/-- Abstraction of the open exodus/netcdf file consulted by `ex_get_attr`:
the id-lookup tables (`ex_id_lkup`, keyed by the id-variable name), dimension
id lookup (`ncdimid`), dimension length inquiry (`ncdiminq`), variable id
lookup (`ncvarid`) and variable read (`ncvarget`, taking the variable id and
the two counts).  Each fallible call either succeeds or fails with the netcdf
error value `ncerr` it would leave behind. -/
structure ExFile where
  id_lkup : String → Int → IdLkupResult
  ncdimid : String → Except Int Int
  ncdiminq : Int → Except Int Int
  ncvarid : String → Except Int Int
  ncvarget : Int → Int → Int → Except Int (List Int)

/-- Observable outcome of one `ex_get_attr` call: the returned status, the
final `exerrval`, the last message passed to `ex_err` (empty if none), and the
caller's attribute array (`none` when the call never wrote it). -/
structure ExGetAttrResult where
  ret : ExStatus
  exerrval : ExErrVal
  errmsg : String
  attrib : Option (List Int)
  deriving DecidableEq, Repr

/-- Human-readable object type name `tname` chosen by the first switch in
exgatt.c lines 76-114 (total function; the invalid case is diverted before
`tname` is ever used). -/
def exTname : ExObjType → String
  | .EX_NODE_SET => "node set"
  | .EX_EDGE_SET => "edge set"
  | .EX_FACE_SET => "face set"
  | .EX_ELEM_SET => "element set"
  | .EX_NODAL => "node block"
  | .EX_EDGE_BLOCK => "edge block"
  | .EX_FACE_BLOCK => "face block"
  | .EX_ELEM_BLOCK => "element block"
  | .EX_INVALID _ => ""

/-- Name `vobjids` of the object-type-specific id-table variable chosen by the
first switch in exgatt.c lines 76-114 (the `VAR_NS_IDS` etc. macros; the exact
string literals live in an internal header outside this fragment, so distinct
tags stand in for them).  `EX_NODAL` sets no `vobjids` in the C code and never
reads it; it is given an empty tag here. -/
def exVobjids : ExObjType → String
  | .EX_NODE_SET => "ns_ids"
  | .EX_EDGE_SET => "es_ids"
  | .EX_FACE_SET => "fs_ids"
  | .EX_ELEM_SET => "els_ids"
  | .EX_NODAL => ""
  | .EX_EDGE_BLOCK => "ed_blk_ids"
  | .EX_FACE_BLOCK => "fa_blk_ids"
  | .EX_ELEM_BLOCK => "el_blk_ids"
  | .EX_INVALID _ => ""

/-- Names `(dnumobjent, dnumobjatt, vattrbname)` chosen by the second switch in
exgatt.c lines 141-182: the entries-count dimension, the attribute-count
dimension, and the attribute variable, each indexed by the resolved object
index (the `DIM_NUM_*` / `VAR_*ATTRIB` macros of the internal header; distinct
tags with the index appended stand in for their expansions).  `EX_NODAL` uses
the unindexed whole-mesh names. -/
def exAttrNames : ExObjType → Int → String × String × String
  | .EX_NODE_SET, ndx =>
      ("num_nod_ns" ++ toString ndx, "num_att_in_ns" ++ toString ndx,
       "nsattrb" ++ toString ndx)
  | .EX_EDGE_SET, ndx =>
      ("num_edge_es" ++ toString ndx, "num_att_in_es" ++ toString ndx,
       "esattrb" ++ toString ndx)
  | .EX_FACE_SET, ndx =>
      ("num_face_fs" ++ toString ndx, "num_att_in_fs" ++ toString ndx,
       "fsattrb" ++ toString ndx)
  | .EX_ELEM_SET, ndx =>
      ("num_ele_els" ++ toString ndx, "num_att_in_els" ++ toString ndx,
       "elsattrb" ++ toString ndx)
  | .EX_NODAL, _ => ("num_nodes", "num_att_in_nblk", "nattrb")
  | .EX_EDGE_BLOCK, ndx =>
      ("num_ed_in_eblk" ++ toString ndx, "num_att_in_eblk" ++ toString ndx,
       "eattrb" ++ toString ndx)
  | .EX_FACE_BLOCK, ndx =>
      ("num_fa_in_fblk" ++ toString ndx, "num_att_in_fblk" ++ toString ndx,
       "fattrb" ++ toString ndx)
  | .EX_ELEM_BLOCK, ndx =>
      ("num_el_in_blk" ++ toString ndx, "num_att_in_blk" ++ toString ndx,
       "attrb" ++ toString ndx)
  | .EX_INVALID _, _ => ("", "", "")

/-- Resolution of `obj_id` to the index `obj_id_ndx` (exgatt.c lines 118-139):
index 0 unconditionally for `EX_NODAL`, otherwise `ex_id_lkup` on the
object-type-specific id table, turning a null entity or a lookup failure into
the corresponding `EX_WARN` outcome. -/
def ex_obj_ndx (f : ExFile) (exoid : Int) (ot : ExObjType) (obj_id : Int) :
    Except ExGetAttrResult Int :=
  match ot with
  | .EX_NODAL => .ok 0
  | _ =>
    match f.id_lkup (exVobjids ot) obj_id with
    | .found n => .ok n
    | .nullEntity =>
        .error
          { ret := .EX_WARN, exerrval := .EX_NULLENTITY,
            errmsg := "Warning: no attributes found for NULL " ++ exTname ot
              ++ " " ++ toString obj_id ++ " in file id " ++ toString exoid,
            attrib := none }
    | .failed e =>
        .error
          { ret := .EX_WARN, exerrval := .lkup e,
            errmsg := "Warning: failed to locate " ++ exTname ot ++ " id "
              ++ toString obj_id ++ " in " ++ exVobjids ot ++ " array in file id "
              ++ toString exoid,
            attrib := none }

/-- Body of `ex_get_attr` after the validity switch (exgatt.c lines 116-262):
resolve the index, look up the entries dimension (fatal if absent), its length
(fatal), the attribute-count dimension (warning "no attributes" if absent), its
length (fatal), the attribute variable (fatal), then read the
`num_entries * num_attr` values into the output array. -/
def ex_get_attr_valid (f : ExFile) (exoid : Int) (ot : ExObjType) (obj_id : Int) :
    ExGetAttrResult :=
  let tname := exTname ot
  match ex_obj_ndx f exoid ot obj_id with
  | .error w => w
  | .ok ndx =>
    let names := exAttrNames ot ndx
    match f.ncdimid names.1 with
    | .error e =>
        { ret := .EX_FATAL, exerrval := .nc e,
          errmsg := "Error: failed to locate number of entries for " ++ tname
            ++ " " ++ toString obj_id ++ " in file id " ++ toString exoid,
          attrib := none }
    | .ok numobjentdim =>
      match f.ncdiminq numobjentdim with
      | .error e =>
          { ret := .EX_FATAL, exerrval := .nc e,
            errmsg := "Error: failed to get number of entries for " ++ tname
              ++ " " ++ toString obj_id ++ " in file id " ++ toString exoid,
            attrib := none }
      | .ok num_entries_this_obj =>
        match f.ncdimid names.2.1 with
        | .error e =>
            { ret := .EX_WARN, exerrval := .nc e,
              errmsg := "Warning: no attributes found for " ++ tname ++ " "
                ++ toString obj_id ++ " in file id " ++ toString exoid,
              attrib := none }
        | .ok numattrdim =>
          match f.ncdiminq numattrdim with
          | .error e =>
              { ret := .EX_FATAL, exerrval := .nc e,
                errmsg := "Error: failed to get number of attributes for "
                  ++ tname ++ " " ++ toString obj_id ++ " in file id "
                  ++ toString exoid,
                attrib := none }
          | .ok num_attr =>
            match f.ncvarid names.2.2 with
            | .error e =>
                { ret := .EX_FATAL, exerrval := .nc e,
                  errmsg := "Error: failed to locate attributes for " ++ tname
                    ++ " " ++ toString obj_id ++ " in file id " ++ toString exoid,
                  attrib := none }
            | .ok attrid =>
              match f.ncvarget attrid num_entries_this_obj num_attr with
              | .error e =>
                  { ret := .EX_FATAL, exerrval := .nc e,
                    errmsg := "Error: failed to get attributes for " ++ tname
                      ++ " " ++ toString obj_id ++ " in file id "
                      ++ toString exoid,
                    attrib := none }
              | .ok data =>
                  { ret := .EX_NOERR, exerrval := .cleared, errmsg := "",
                    attrib := some data }

/-- Shallow embedding of `ex_get_attr` (exgatt.c lines 61-263): an object type
outside the eight recognized kinds fails immediately with
`exerrval = EX_BADPARAM` and `EX_FATAL` before touching the file; otherwise the
body `ex_get_attr_valid` runs. -/
def ex_get_attr (f : ExFile) (exoid : Int) (obj_type : ExObjType) (obj_id : Int) :
    ExGetAttrResult :=
  match obj_type with
  | .EX_INVALID c =>
      { ret := .EX_FATAL, exerrval := .EX_BADPARAM,
        errmsg := "Error: Invalid object type (" ++ toString c
          ++ ") specified for file id " ++ toString exoid,
        attrib := none }
  | ot => ex_get_attr_valid f exoid ot obj_id

end Exodus

namespace EigenSys

/-- Dimension-carrying stand-in for `SparseMatrix<Number>`: an explicitly
stored square operator of the given dimension (entry values are irrelevant to
the claims settled here). -/
structure SparseMat where
  dim : Nat
  deriving DecidableEq, Repr

/-- Dimension-carrying stand-in for `ShellMatrix<Number>`: a matrix-free
operator of the given nominal dimension. -/
structure ShellMat where
  dim : Nat
  deriving DecidableEq, Repr

/-- Eigen problem type tag (`EigenProblemType`): non-Hermitian, Hermitian, and
their generalized variants. -/
inductive EigenProblemType where
  | NHEP
  | HEP
  | GNHEP
  | GHEP
  | GHIEP
  deriving DecidableEq, Repr

/-- Modelled from the spec: whether an `EigenProblemType` denotes a generalized
problem (the body of `set_eigenproblem_type` is not part of this fragment; the
spec says the setter "sets `generalized()`'s truth value", with the `G*` kinds
being the generalized ones `A x = lambda B x`). -/
def EigenProblemType.is_generalized : EigenProblemType → Bool
  | .NHEP => false
  | .HEP => false
  | .GNHEP => true
  | .GHEP => true
  | .GHIEP => true

/-- Converged result store held by the solver adapter: per converged pair the
eigenvalue `(re, im)` and the eigenvector (a DOF-indexed vector, values
modelled as integers). -/
structure SolverState where
  eigenpairs : List ((Int × Int) × List Int)
  deriving DecidableEq, Repr

/-- State of an `EigenSystem` object (eigen_system.h lines 55-320): the six
operator slots (`unique_ptr` becomes `Option`), the solver adapter result
store, the scalar members `_n_converged_eigenpairs`, `_n_iterations`,
`_is_generalized_eigenproblem`, `_eigen_problem_type`, `_use_shell_matrices`,
`_use_shell_precond_matrix`, the auxiliary registry `_matrices`, plus the
shared solution vector inherited from `System`, the optional initial space
handed to the solver, and the lazily-tracked request flag for the
preconditioning operator. -/
structure EigenSystem where
  matrix_A : Option SparseMat
  matrix_B : Option SparseMat
  shell_matrix_A : Option ShellMat
  shell_matrix_B : Option ShellMat
  precond_matrix : Option SparseMat
  shell_precond_matrix : Option ShellMat
  eigen_solver : SolverState
  n_converged_eigenpairs : Nat
  n_iterations : Nat
  is_generalized_eigenproblem : Bool
  eigen_problem_type : EigenProblemType
  shell_matrices_flag : Bool
  shell_precond_matrix_flag : Bool
  matrices : List (String × SparseMat)
  solution : List Int
  initial_space : Option (List Int)
  precond_requested : Bool
  deriving DecidableEq, Repr

/-- Accessor `generalized()` (eigen_system.h line 161): returns
`_is_generalized_eigenproblem`. -/
def generalized (s : EigenSystem) : Bool := s.is_generalized_eigenproblem

/-- Member `n_matrices()` (eigen_system.h lines 326-333): 2 when
`_is_generalized_eigenproblem`, else 1; a pure query of the state. -/
def n_matrices (s : EigenSystem) : Nat :=
  if s.is_generalized_eigenproblem then 2 else 1

/-- Member `have_matrix(mat_name)` (eigen_system.h lines 336-340): the
`std::map::count` of the name in `_matrices`, converted to bool. -/
def have_matrix (s : EigenSystem) (mat_name : String) : Bool :=
  (s.matrices.countP (fun p => p.1 == mat_name)) != 0

/-- Accessor `get_n_converged()` (eigen_system.h line 135). -/
def get_n_converged (s : EigenSystem) : Nat := s.n_converged_eigenpairs

/-- Accessor `get_n_iterations()` (eigen_system.h line 140). -/
def get_n_iterations (s : EigenSystem) : Nat := s.n_iterations

/-- Accessor `get_eigenproblem_type()` (eigen_system.h line 150). -/
def get_eigenproblem_type (s : EigenSystem) : EigenProblemType :=
  s.eigen_problem_type

/-- Getter `use_shell_matrices()` (eigen_system.h line 166). -/
def use_shell_matrices (s : EigenSystem) : Bool := s.shell_matrices_flag

/-- Setter `use_shell_matrices(bool)` (eigen_system.h line 171). -/
def set_use_shell_matrices (s : EigenSystem) (b : Bool) : EigenSystem :=
  { s with shell_matrices_flag := b }

/-- Getter `use_shell_precond_matrix()` (eigen_system.h line 176). -/
def use_shell_precond_matrix (s : EigenSystem) : Bool :=
  s.shell_precond_matrix_flag

/-- Setter `use_shell_precond_matrix(bool)` (eigen_system.h line 181). -/
def set_use_shell_precond_matrix (s : EigenSystem) (b : Bool) : EigenSystem :=
  { s with shell_precond_matrix_flag := b }

/-- Modelled from the spec: the state right after construction (the
constructor body is not part of this fragment).  Nothing is allocated, no
results exist, the default problem is standard, shell representations are off,
and the auxiliary registry is empty. -/
def construction : EigenSystem :=
  { matrix_A := none, matrix_B := none, shell_matrix_A := none,
    shell_matrix_B := none, precond_matrix := none,
    shell_precond_matrix := none, eigen_solver := ⟨[]⟩,
    n_converged_eigenpairs := 0, n_iterations := 0,
    is_generalized_eigenproblem := false, eigen_problem_type := .NHEP,
    shell_matrices_flag := false, shell_precond_matrix_flag := false,
    matrices := [], solution := [], initial_space := none,
    precond_requested := false }

/-- Modelled from the spec: `set_eigenproblem_type(ept)` (body not in this
fragment) records the type and sets `generalized()`'s truth value from it. -/
def set_eigenproblem_type (s : EigenSystem) (ept : EigenProblemType) :
    EigenSystem :=
  { s with eigen_problem_type := ept,
           is_generalized_eigenproblem := ept.is_generalized }

/-- Modelled from the spec: `set_initial_space(v)` (body not in this fragment)
supplies a starting guess to the solver adapter. -/
def set_initial_space (s : EigenSystem) (v : List Int) : EigenSystem :=
  { s with initial_space := some v }

/-- Modelled from the spec: marks the preconditioning operator as requested,
so that `init_matrices` allocates it lazily ("only if a value was ever
requested"). -/
def request_precond (s : EigenSystem) : EigenSystem :=
  { s with precond_requested := true }

/-- Modelled from the spec: `init_matrices()` (body not in this fragment)
allocates A sized to the DOF count, B only if `generalized()`, the
preconditioning operator only if ever requested, each in the stored or shell
representation selected by the corresponding flag; allocating a slot releases
any previously held operator of the other representation, so exactly one
representation per slot survives. -/
def init_matrices (s : EigenSystem) (n_dofs : Nat) : EigenSystem :=
  { s with
    matrix_A := if s.shell_matrices_flag then none else some ⟨n_dofs⟩,
    shell_matrix_A := if s.shell_matrices_flag then some ⟨n_dofs⟩ else none,
    matrix_B :=
      if s.is_generalized_eigenproblem && !s.shell_matrices_flag then
        some ⟨n_dofs⟩
      else none,
    shell_matrix_B :=
      if s.is_generalized_eigenproblem && s.shell_matrices_flag then
        some ⟨n_dofs⟩
      else none,
    precond_matrix :=
      if s.precond_requested && !s.shell_precond_matrix_flag then
        some ⟨n_dofs⟩
      else none,
    shell_precond_matrix :=
      if s.precond_requested && s.shell_precond_matrix_flag then
        some ⟨n_dofs⟩
      else none }

/-- Modelled from the spec: `reinit()` (body not in this fragment) re-derives
the DOF count, re-allocates the operators to it preserving all configuration
flags, and discards assembled/solved data; the auxiliary registry is not
touched. -/
def reinit (s : EigenSystem) (n_dofs : Nat) : EigenSystem :=
  { init_matrices s n_dofs with
      eigen_solver := ⟨[]⟩, n_converged_eigenpairs := 0, n_iterations := 0 }

/-- Modelled from the spec: `clear()` (body not in this fragment) releases all
operator and solver state, returning to the post-construction state except
for the persisted configuration flags. -/
def clear (s : EigenSystem) : EigenSystem :=
  { construction with
      is_generalized_eigenproblem := s.is_generalized_eigenproblem,
      eigen_problem_type := s.eigen_problem_type,
      shell_matrices_flag := s.shell_matrices_flag,
      shell_precond_matrix_flag := s.shell_precond_matrix_flag,
      precond_requested := s.precond_requested }

/-- Modelled from the spec: `solve()` (body not in this fragment) delegates to
the solver adapter; the adapter's outcome (its converged eigenpair store and
iteration count) is taken as a parameter, and `get_n_converged()` /
`get_n_iterations()` reflect it afterwards. -/
def solve (s : EigenSystem) (pairs : List ((Int × Int) × List Int))
    (iters : Nat) : EigenSystem :=
  { s with eigen_solver := ⟨pairs⟩,
           n_converged_eigenpairs := pairs.length,
           n_iterations := iters }

/-- Modelled from the spec: `get_eigenvalue(i)` (body not in this fragment)
requires `i < get_n_converged()` and returns the i-th eigenvalue `(re, im)`
from the solver store without any side effect; the state comes back
unchanged. -/
def get_eigenvalue (s : EigenSystem) (i : Nat) :
    Option ((Int × Int) × EigenSystem) :=
  if i < get_n_converged s then
    (s.eigen_solver.eigenpairs.get? i).map (fun p => (p.1, s))
  else none

/-- Modelled from the spec: `get_eigenpair(i)` (body not in this fragment)
requires `i < get_n_converged()`, returns the same `(re, im)` as
`get_eigenvalue(i)`, and additionally copies eigenvector i into the shared
solution vector. -/
def get_eigenpair (s : EigenSystem) (i : Nat) :
    Option ((Int × Int) × EigenSystem) :=
  if i < get_n_converged s then
    (s.eigen_solver.eigenpairs.get? i).map
      (fun p => (p.1, { s with solution := p.2 }))
  else none

/-- Modelled from the spec: `add_matrix(mat_name, ...)` (body not in this
fragment) registers a new named auxiliary matrix and fails when the name is
already registered. -/
def add_matrix (s : EigenSystem) (mat_name : String) (m : SparseMat) :
    Except String EigenSystem :=
  if have_matrix s mat_name then
    .error ("Error: duplicate matrix name " ++ mat_name)
  else
    .ok { s with matrices := (mat_name, m) :: s.matrices }

/-- Modelled from the spec: `get_matrix(mat_name)` (body not in this fragment)
looks the name up in the registry and fails with "not found" when it was never
registered. -/
def get_matrix (s : EigenSystem) (mat_name : String) :
    Except String SparseMat :=
  match s.matrices.lookup mat_name with
  | some m => .ok m
  | none => .error ("Error: matrix not found: " ++ mat_name)

/-- One public operation of the controller, as a step relation on system
states; fallible operations step only on their success outcome, and the solver
adapter outcome in `solve` is arbitrary. -/
inductive Step : EigenSystem → EigenSystem → Prop where
  | set_problem_type (s : EigenSystem) (ept : EigenProblemType) :
      Step s (set_eigenproblem_type s ept)
  | set_shell (s : EigenSystem) (b : Bool) :
      Step s (set_use_shell_matrices s b)
  | set_shell_precond (s : EigenSystem) (b : Bool) :
      Step s (set_use_shell_precond_matrix s b)
  | req_precond (s : EigenSystem) : Step s (request_precond s)
  | set_space (s : EigenSystem) (v : List Int) :
      Step s (set_initial_space s v)
  | init (s : EigenSystem) (n : Nat) : Step s (init_matrices s n)
  | do_reinit (s : EigenSystem) (n : Nat) : Step s (reinit s n)
  | do_clear (s : EigenSystem) : Step s (clear s)
  | do_solve (s : EigenSystem) (pairs : List ((Int × Int) × List Int))
      (iters : Nat) : Step s (solve s pairs iters)
  | do_add (s t : EigenSystem) (mat_name : String) (m : SparseMat) :
      add_matrix s mat_name m = .ok t → Step s t
  | do_eigenpair (s t : EigenSystem) (i : Nat) (v : Int × Int) :
      get_eigenpair s i = some (v, t) → Step s t

/-- States reachable from the constructed state by public operations. -/
def Reachable (s : EigenSystem) : Prop :=
  Relation.ReflTransGen Step construction s

/-- Per-slot exclusivity: no operator slot (A, B, preconditioner) holds its
stored and its shell representation at the same time. -/
def slot_exclusive (s : EigenSystem) : Bool :=
  !(s.matrix_A.isSome && s.shell_matrix_A.isSome) &&
  !(s.matrix_B.isSome && s.shell_matrix_B.isSome) &&
  !(s.precond_matrix.isSome && s.shell_precond_matrix.isSome)

/-- Dimension of the active representation of slot A: the stored matrix if
present, else the shell matrix, else nothing. -/
def active_A (s : EigenSystem) : Option Nat :=
  match s.matrix_A, s.shell_matrix_A with
  | some m, _ => some m.dim
  | none, some sh => some sh.dim
  | none, none => none

/-- Dimension of the active representation of slot B. -/
def active_B (s : EigenSystem) : Option Nat :=
  match s.matrix_B, s.shell_matrix_B with
  | some m, _ => some m.dim
  | none, some sh => some sh.dim
  | none, none => none

/-- Sequence of `add_matrix` registrations applied in order, each failure
leaving the state unchanged. -/
def add_matrix_all (s : EigenSystem) (l : List (String × SparseMat)) :
    EigenSystem :=
  l.foldl
    (fun t p =>
      match add_matrix t p.1 p.2 with
      | .ok t2 => t2
      | .error _ => t) s

end EigenSys

namespace Exodus

/-- Concrete file in which every id lookup reports a null entity. -/
def fileNull : ExFile :=
  ⟨fun _ _ => .nullEntity, fun _ => .error 3, fun _ => .error 3,
   fun _ => .error 3, fun _ _ _ => .error 3⟩

/-- Concrete file in which every id lookup fails with error value 7. -/
def fileNotFound : ExFile :=
  ⟨fun _ _ => .failed 7, fun _ => .error 3, fun _ => .error 3,
   fun _ => .error 3, fun _ _ _ => .error 3⟩

/-- Concrete file where ids resolve to index 1 but no dimensions exist. -/
def fileNoEnt : ExFile :=
  ⟨fun _ _ => .found 1, fun _ => .error 3, fun _ => .error 3,
   fun _ => .error 3, fun _ _ _ => .error 3⟩

/-- Concrete file with the node-set entries dimension present (10 entries) but
no attribute-count dimension. -/
def fileNoAttrDim : ExFile :=
  ⟨fun _ _ => .found 1,
   fun nm => if nm = "num_nod_ns1" then .ok 1 else .error 3,
   fun d => if d = 1 then .ok 10 else .error 4,
   fun _ => .error 5, fun _ _ _ => .error 6⟩

/-- Concrete file with both dimensions present but the attribute-count
dimension unreadable. -/
def fileNoAttrCount : ExFile :=
  ⟨fun _ _ => .found 1,
   fun nm =>
     if nm = "num_nod_ns1" then .ok 1
     else if nm = "num_att_in_ns1" then .ok 2 else .error 3,
   fun d => if d = 1 then .ok 10 else .error 4,
   fun _ => .error 5, fun _ _ _ => .error 6⟩

/-- Concrete file with both dimensions readable but no attribute variable. -/
def fileNoVar : ExFile :=
  ⟨fun _ _ => .found 1,
   fun nm =>
     if nm = "num_nod_ns1" then .ok 1
     else if nm = "num_att_in_ns1" then .ok 2 else .error 3,
   fun d => if d = 1 then .ok 10 else if d = 2 then .ok 3 else .error 4,
   fun _ => .error 9, fun _ _ _ => .error 6⟩

/-- Concrete file on which the whole read succeeds. -/
def fileGood : ExFile :=
  ⟨fun _ _ => .found 1,
   fun nm =>
     if nm = "num_nod_ns1" then .ok 1
     else if nm = "num_att_in_ns1" then .ok 2 else .error 3,
   fun d => if d = 1 then .ok 2 else if d = 2 then .ok 3 else .error 4,
   fun _ => .ok 11, fun _ _ _ => .ok [1, 2, 3, 4, 5, 6]⟩

end Exodus

namespace EigenSys

/-- Concrete generalized system, initialized at DOF count 2 and solved with
two converged eigenpairs, used to instantiate the theorems below. -/
def sample : EigenSystem :=
  solve (init_matrices (set_eigenproblem_type construction .GNHEP) 2)
    [((3, 0), [1, 0]), ((5, 0), [0, 1])] 7

end EigenSys

open Exodus EigenSys

/-- C4: for every configuration, `n_matrices()` is 2 exactly when
`generalized()` is true and 1 otherwise.  `n_matrices` is embedded as a pure
function of the system state (it is a `const` query in the source, eigen_system.h
lines 326-333), so it can have no side effect on the state. -/
theorem C4_n_matrices_of_generalized (s : EigenSystem) :
    n_matrices s = (if generalized s then 2 else 1) ∧
    (n_matrices s = 2 ↔ generalized s = true) := by
  unfold n_matrices generalized
  cases s.is_generalized_eigenproblem <;> simp

/-- C5: `get_eigenpair(i)` for `i ≥ get_n_converged()` fails (returns no
eigenvalue and leaves no new state) instead of producing an arbitrary
eigenpair. -/
theorem C5_get_eigenpair_out_of_range (s : EigenSystem) (i : Nat)
    (h : get_n_converged s ≤ i) : get_eigenpair s i = none := by
  unfold get_eigenpair
  simp [Nat.not_lt.mpr h]

/-- Witness for C5 at the concrete solved sample state: index 2 is out of
range for its 2 converged pairs. -/
theorem C5_witness :
    get_n_converged sample ≤ 2 ∧ get_eigenpair sample 2 = none :=
  ⟨by decide, C5_get_eigenpair_out_of_range sample 2 (by decide)⟩

/-- C1: for a valid index `i < get_n_converged()` whose pair is present in the
solver store, `get_eigenvalue(i)` and `get_eigenpair(i)` report the identical
`(re, im)` eigenvalue; `get_eigenvalue` returns the state unchanged, and
`get_eigenpair` changes exactly the shared solution vector, setting it to
eigenvector i. -/
theorem C1_eigenvalue_eigenpair_consistent (s : EigenSystem) (i : Nat)
    (p : (Int × Int) × List Int)
    (h1 : i < get_n_converged s)
    (h2 : s.eigen_solver.eigenpairs.get? i = some p) :
    get_eigenvalue s i = some (p.1, s) ∧
    get_eigenpair s i = some (p.1, { s with solution := p.2 }) := by
  unfold get_eigenvalue get_eigenpair
  refine ⟨?_, ?_⟩ <;> (rw [if_pos h1, h2]; rfl)

/-- Witness for C1 at the concrete solved sample state, index 0. -/
theorem C1_witness :
    0 < get_n_converged sample ∧
    sample.eigen_solver.eigenpairs.get? 0 = some ((3, 0), [1, 0]) ∧
    get_eigenvalue sample 0 = some ((3, 0), sample) ∧
    get_eigenpair sample 0 = some ((3, 0), { sample with solution := [1, 0] }) :=
  ⟨by decide, by decide,
   C1_eigenvalue_eigenpair_consistent sample 0 ((3, 0), [1, 0]) (by decide)
     (by decide)⟩

/-- C10: an object type outside the eight recognized kinds makes `ex_get_attr`
return `EX_FATAL` with `exerrval = EX_BADPARAM` and a message, independently of
the file contents (no file access) and without writing the caller's attribute
array (`attrib = none`). -/
theorem C10_invalid_obj_type (f g : ExFile) (exoid c obj_id : Int) :
    ex_get_attr f exoid (.EX_INVALID c) obj_id =
      { ret := .EX_FATAL, exerrval := .EX_BADPARAM,
        errmsg := "Error: Invalid object type (" ++ toString c
          ++ ") specified for file id " ++ toString exoid,
        attrib := none } ∧
    ex_get_attr f exoid (.EX_INVALID c) obj_id =
      ex_get_attr g exoid (.EX_INVALID c) obj_id := by
  exact ⟨rfl, rfl⟩

/-- C3: after `init_matrices`, the B operator (in the representation selected
by the shell flag) is allocated exactly when the problem is generalized, is
sized like A (both to the DOF count), and in a standard problem neither B
representation is allocated while A is. -/
theorem C3_init_matrices_B_iff_generalized (s : EigenSystem) (n : Nat) :
    active_A (init_matrices s n) = some n ∧
    active_B (init_matrices s n) =
      (if generalized s then some n else none) ∧
    (init_matrices s n).matrix_B.isSome =
      (generalized s && !use_shell_matrices s) ∧
    (init_matrices s n).shell_matrix_B.isSome =
      (generalized s && use_shell_matrices s) ∧
    generalized (init_matrices s n) = generalized s := by
  unfold init_matrices active_A active_B generalized use_shell_matrices
  cases s.is_generalized_eigenproblem <;>
    cases s.shell_matrices_flag <;> simp

/-- C7: `reinit` leaves the auxiliary registry untouched (so `have_matrix`
answers exactly as before), while every operator slot is freshly re-allocated
from the configuration flags and the new DOF count alone — the slot contents
after `reinit` are fixed by the flags, so no stale operator from before the
call survives. -/
theorem C7_reinit_registry_survives (s : EigenSystem) (n : Nat) :
    (reinit s n).matrices = s.matrices ∧
    (∀ name, have_matrix (reinit s n) name = have_matrix s name) ∧
    (reinit s n).matrix_A =
      (if use_shell_matrices s then none else some ⟨n⟩) ∧
    (reinit s n).shell_matrix_A =
      (if use_shell_matrices s then some ⟨n⟩ else none) ∧
    (reinit s n).matrix_B =
      (if generalized s && !use_shell_matrices s then some ⟨n⟩ else none) ∧
    (reinit s n).shell_matrix_B =
      (if generalized s && use_shell_matrices s then some ⟨n⟩ else none) ∧
    (reinit s n).precond_matrix =
      (if s.precond_requested && !use_shell_precond_matrix s then some ⟨n⟩
       else none) ∧
    (reinit s n).shell_precond_matrix =
      (if s.precond_requested && use_shell_precond_matrix s then some ⟨n⟩
       else none) := by
  unfold reinit init_matrices have_matrix generalized use_shell_matrices
    use_shell_precond_matrix
  refine ⟨rfl, fun name => rfl, ?_, ?_, ?_, ?_, ?_, ?_⟩ <;>
    cases s.shell_matrices_flag <;> simp

/-- C9: resolution of the object id to an index (exgatt.c lines 118-139): the
whole-mesh node block `EX_NODAL` gets index 0 unconditionally and the call
result does not depend on the id-lookup table at all, while every other
recognized object type resolves the id through its own type-specific id table
`exVobjids`. -/
theorem C9_obj_id_resolution (f : ExFile) (g : String → Int → IdLkupResult)
    (exoid obj_id n : Int) :
    ex_obj_ndx f exoid .EX_NODAL obj_id = .ok 0 ∧
    ex_get_attr { f with id_lkup := g } exoid .EX_NODAL obj_id =
      ex_get_attr f exoid .EX_NODAL obj_id ∧
    (∀ ot : ExObjType, ot ≠ .EX_NODAL → (∀ c, ot ≠ .EX_INVALID c) →
      (ex_obj_ndx f exoid ot obj_id = .ok n ↔
        f.id_lkup (exVobjids ot) obj_id = .found n)) := by
  refine ⟨rfl, rfl, ?_⟩
  intro ot hnodal hinv
  cases ot
  case EX_NODAL => exact absurd rfl hnodal
  case EX_INVALID c => exact absurd rfl (hinv c)
  all_goals
    simp only [ex_obj_ndx]
    split <;> simp_all

/-- Adding one registry entry makes `have_matrix` answer true for that name and
leaves every other name's answer unchanged. -/
theorem have_matrix_cons (s : EigenSystem) (nm nm2 : String) (m : SparseMat) :
    have_matrix { s with matrices := (nm, m) :: s.matrices } nm2 =
      ((nm == nm2) || have_matrix s nm2) := by
  unfold have_matrix
  cases h : nm == nm2 <;> simp [List.countP_cons, h]

/-- A name counted zero times in the registry has no `lookup` entry. -/
theorem lookup_none_of_countP_zero (l : List (String × SparseMat))
    (name : String) (h : l.countP (fun p => p.1 == name) = 0) :
    l.lookup name = none := by
  induction l with
  | nil => rfl
  | cons a t ih =>
    obtain ⟨k, v⟩ := a
    rw [List.countP_cons] at h
    by_cases hek : k = name
    · subst hek
      simp at h
    · have h1 : (k == name) = false := beq_eq_false_iff_ne.mpr hek
      have h2 : (name == k) = false := beq_eq_false_iff_ne.mpr (Ne.symm hek)
      simp only [List.lookup, h2]
      exact ih (by simpa [h1] using h)

/-- Registration survives a whole sequence of `add_matrix` calls: after
`add_matrix_all`, a name is present exactly when it was present before or
appears among the names added. -/
theorem have_matrix_add_all (l : List (String × SparseMat)) (s : EigenSystem)
    (nm : String) :
    have_matrix (add_matrix_all s l) nm =
      (have_matrix s nm || (l.map Prod.fst).contains nm) := by
  induction l generalizing s with
  | nil => simp [add_matrix_all]
  | cons p l ih =>
    rw [show add_matrix_all s (p :: l) =
        add_matrix_all
          (match add_matrix s p.1 p.2 with
           | .ok t => t
           | .error _ => s) l from rfl]
    rw [ih]
    cases hm : have_matrix s p.1
    · simp only [add_matrix, hm, Bool.false_eq_true, if_false]
      rw [have_matrix_cons]
      by_cases he : nm = p.1
      · subst he
        simp
      · simp [beq_eq_false_iff_ne.mpr he,
          beq_eq_false_iff_ne.mpr (Ne.symm he), Bool.or_assoc]
    · simp only [add_matrix, hm, if_true]
      by_cases he : nm = p.1
      · subst he
        simp [hm]
      · simp [beq_eq_false_iff_ne.mpr he,
          beq_eq_false_iff_ne.mpr (Ne.symm he)]

/-- C6: `add_matrix` on an already registered name fails with a duplicate-name
error and on a fresh name registers it; `get_matrix` on a name that was never
registered fails with a not-found error; and starting from the constructed
state, `have_matrix` answers true exactly for the names registered by a
sequence of `add_matrix` calls. -/
theorem C6_matrix_registry (s : EigenSystem) (name : String) (m : SparseMat) :
    (have_matrix s name = true →
      ∃ e, add_matrix s name m = Except.error e) ∧
    (have_matrix s name = false →
      add_matrix s name m =
        Except.ok { s with matrices := (name, m) :: s.matrices }) ∧
    (have_matrix s name = false → ∃ e, get_matrix s name = Except.error e) ∧
    have_matrix construction name = false ∧
    (∀ l, have_matrix (add_matrix_all construction l) name =
      (l.map Prod.fst).contains name) := by
  refine ⟨?_, ?_, ?_, ?_, ?_⟩
  · intro h
    exact ⟨"Error: duplicate matrix name " ++ name, by simp [add_matrix, h]⟩
  · intro h
    simp [add_matrix, h]
  · intro h
    have hc : s.matrices.countP (fun p => p.1 == name) = 0 := by
      unfold have_matrix at h
      simpa using h
    have hl := lookup_none_of_countP_zero s.matrices name hc
    exact ⟨"Error: matrix not found: " ++ name, by simp [get_matrix, hl]⟩
  · rfl
  · intro l
    rw [have_matrix_add_all]
    rfl

/-- Witness for C6: after registering "M" once, a second `add_matrix "M"`
fails; `get_matrix "unknown"` on the fresh system fails; and "M" is reported
registered. -/
theorem C6_witness :
    (∃ e, add_matrix (add_matrix_all construction [("M", ⟨1⟩)]) "M" ⟨1⟩ =
      Except.error e) ∧
    (∃ e, get_matrix construction "unknown" = Except.error e) ∧
    have_matrix (add_matrix_all construction [("M", ⟨1⟩)]) "M" = true :=
  ⟨(C6_matrix_registry (add_matrix_all construction [("M", ⟨1⟩)]) "M"
      ⟨1⟩).1 (by decide),
   (C6_matrix_registry construction "unknown" ⟨1⟩).2.2.1 (by decide),
   by decide⟩

/-- C8: outcome taxonomy of the legacy reader for any recognized object type.
An id that does not resolve (null entity or lookup failure) gives the
`EX_WARN` outcome with its descriptive message, never fatal; a missing
entries dimension, an unreadable attribute-count dimension, or a missing
attribute variable each give `EX_FATAL`; a missing attribute dimension gives
the "no attributes" `EX_WARN` outcome, and in every one of these cases the
output array stays unwritten. -/
theorem C8_legacy_reader_outcomes (f : ExFile) (exoid obj_id : Int)
    (ot : ExObjType) (hv : ∀ c, ot ≠ ExObjType.EX_INVALID c) :
    (ot ≠ .EX_NODAL → f.id_lkup (exVobjids ot) obj_id = .nullEntity →
      ex_get_attr f exoid ot obj_id =
        { ret := .EX_WARN, exerrval := .EX_NULLENTITY,
          errmsg := "Warning: no attributes found for NULL " ++ exTname ot
            ++ " " ++ toString obj_id ++ " in file id " ++ toString exoid,
          attrib := none }) ∧
    (∀ e, ot ≠ .EX_NODAL → f.id_lkup (exVobjids ot) obj_id = .failed e →
      ex_get_attr f exoid ot obj_id =
        { ret := .EX_WARN, exerrval := .lkup e,
          errmsg := "Warning: failed to locate " ++ exTname ot ++ " id "
            ++ toString obj_id ++ " in " ++ exVobjids ot
            ++ " array in file id " ++ toString exoid,
          attrib := none }) ∧
    (∀ ndx e, ex_obj_ndx f exoid ot obj_id = .ok ndx →
      f.ncdimid (exAttrNames ot ndx).1 = .error e →
      ex_get_attr f exoid ot obj_id =
        { ret := .EX_FATAL, exerrval := .nc e,
          errmsg := "Error: failed to locate number of entries for "
            ++ exTname ot ++ " " ++ toString obj_id ++ " in file id "
            ++ toString exoid,
          attrib := none }) ∧
    (∀ ndx d1 len e, ex_obj_ndx f exoid ot obj_id = .ok ndx →
      f.ncdimid (exAttrNames ot ndx).1 = .ok d1 →
      f.ncdiminq d1 = .ok len →
      f.ncdimid (exAttrNames ot ndx).2.1 = .error e →
      ex_get_attr f exoid ot obj_id =
        { ret := .EX_WARN, exerrval := .nc e,
          errmsg := "Warning: no attributes found for " ++ exTname ot ++ " "
            ++ toString obj_id ++ " in file id " ++ toString exoid,
          attrib := none }) ∧
    (∀ ndx d1 len d2 e, ex_obj_ndx f exoid ot obj_id = .ok ndx →
      f.ncdimid (exAttrNames ot ndx).1 = .ok d1 →
      f.ncdiminq d1 = .ok len →
      f.ncdimid (exAttrNames ot ndx).2.1 = .ok d2 →
      f.ncdiminq d2 = .error e →
      ex_get_attr f exoid ot obj_id =
        { ret := .EX_FATAL, exerrval := .nc e,
          errmsg := "Error: failed to get number of attributes for "
            ++ exTname ot ++ " " ++ toString obj_id ++ " in file id "
            ++ toString exoid,
          attrib := none }) ∧
    (∀ ndx d1 len d2 na e, ex_obj_ndx f exoid ot obj_id = .ok ndx →
      f.ncdimid (exAttrNames ot ndx).1 = .ok d1 →
      f.ncdiminq d1 = .ok len →
      f.ncdimid (exAttrNames ot ndx).2.1 = .ok d2 →
      f.ncdiminq d2 = .ok na →
      f.ncvarid (exAttrNames ot ndx).2.2 = .error e →
      ex_get_attr f exoid ot obj_id =
        { ret := .EX_FATAL, exerrval := .nc e,
          errmsg := "Error: failed to locate attributes for " ++ exTname ot
            ++ " " ++ toString obj_id ++ " in file id " ++ toString exoid,
          attrib := none }) := by
  refine ⟨?_, ?_, ?_, ?_, ?_, ?_⟩
  · intro hn hl
    cases ot
    case EX_NODAL => exact absurd rfl hn
    case EX_INVALID c => exact absurd rfl (hv c)
    all_goals simp [ex_get_attr, ex_get_attr_valid, ex_obj_ndx, hl]
  · intro e hn hl
    cases ot
    case EX_NODAL => exact absurd rfl hn
    case EX_INVALID c => exact absurd rfl (hv c)
    all_goals simp [ex_get_attr, ex_get_attr_valid, ex_obj_ndx, hl]
  · intro ndx e h1 h2
    cases ot
    case EX_INVALID c => exact absurd rfl (hv c)
    all_goals simp [ex_get_attr, ex_get_attr_valid, h1, h2]
  · intro ndx d1 len e h1 h2 h3 h4
    cases ot
    case EX_INVALID c => exact absurd rfl (hv c)
    all_goals simp [ex_get_attr, ex_get_attr_valid, h1, h2, h3, h4]
  · intro ndx d1 len d2 e h1 h2 h3 h4 h5
    cases ot
    case EX_INVALID c => exact absurd rfl (hv c)
    all_goals simp [ex_get_attr, ex_get_attr_valid, h1, h2, h3, h4, h5]
  · intro ndx d1 len d2 na e h1 h2 h3 h4 h5 h6
    cases ot
    case EX_INVALID c => exact absurd rfl (hv c)
    all_goals simp [ex_get_attr, ex_get_attr_valid, h1, h2, h3, h4, h5, h6]

/-- Witness for C8, applying each branch of the outcome taxonomy to a concrete
node-set query against a file exhibiting that failure. -/
theorem C8_witness :
    (ex_get_attr fileNull 1 .EX_NODE_SET 5).ret = .EX_WARN ∧
    (ex_get_attr fileNotFound 1 .EX_NODE_SET 5).ret = .EX_WARN ∧
    (ex_get_attr fileNoEnt 1 .EX_NODE_SET 5).ret = .EX_FATAL ∧
    (ex_get_attr fileNoAttrDim 1 .EX_NODE_SET 5).ret = .EX_WARN ∧
    (ex_get_attr fileNoAttrCount 1 .EX_NODE_SET 5).ret = .EX_FATAL ∧
    (ex_get_attr fileNoVar 1 .EX_NODE_SET 5).ret = .EX_FATAL := by
  refine ⟨?_, ?_, ?_, ?_, ?_, ?_⟩
  · rw [(C8_legacy_reader_outcomes fileNull 1 5 .EX_NODE_SET
      (fun c h => ExObjType.noConfusion h)).1 (by decide) rfl]
  · rw [(C8_legacy_reader_outcomes fileNotFound 1 5 .EX_NODE_SET
      (fun c h => ExObjType.noConfusion h)).2.1 7 (by decide) rfl]
  · rw [(C8_legacy_reader_outcomes fileNoEnt 1 5 .EX_NODE_SET
      (fun c h => ExObjType.noConfusion h)).2.2.1 1 3 rfl rfl]
  · rw [(C8_legacy_reader_outcomes fileNoAttrDim 1 5 .EX_NODE_SET
      (fun c h => ExObjType.noConfusion h)).2.2.2.1 1 1 10 3 rfl rfl rfl rfl]
  · rw [(C8_legacy_reader_outcomes fileNoAttrCount 1 5 .EX_NODE_SET
      (fun c h => ExObjType.noConfusion h)).2.2.2.2.1 1 1 10 2 4
      rfl rfl rfl rfl rfl]
  · rw [(C8_legacy_reader_outcomes fileNoVar 1 5 .EX_NODE_SET
      (fun c h => ExObjType.noConfusion h)).2.2.2.2.2 1 1 10 2 3 9
      rfl rfl rfl rfl rfl rfl]

/-- Witness for C9: nodal resolution gives index 0 on the concrete file, and a
node-set id resolves through the node-set id table. -/
theorem C9_witness :
    ex_obj_ndx fileGood 1 .EX_NODAL 5 = .ok 0 ∧
    (ex_obj_ndx fileGood 1 .EX_NODE_SET 5 = .ok 1 ↔
      fileGood.id_lkup (exVobjids .EX_NODE_SET) 5 = .found 1) := by
  obtain ⟨h1, _, h3⟩ :=
    C9_obj_id_resolution fileGood (fun _ _ => .nullEntity) 1 5 1
  exact ⟨h1, h3 .EX_NODE_SET (by decide) (fun c h => ExObjType.noConfusion h)⟩

/-- Allocation by `init_matrices` always restores per-slot exclusivity,
whatever state it starts from. -/
theorem slot_exclusive_init (t : EigenSystem) (n : Nat) :
    slot_exclusive (init_matrices t n) = true := by
  unfold slot_exclusive init_matrices
  cases t.shell_matrices_flag <;> cases t.is_generalized_eigenproblem <;>
    cases t.precond_requested <;> cases t.shell_precond_matrix_flag <;> simp

/-- Every single public operation preserves per-slot exclusivity. -/
theorem slot_exclusive_step (a b2 : EigenSystem) (hstep : Step a b2)
    (ha : slot_exclusive a = true) : slot_exclusive b2 = true := by
  cases hstep with
  | set_problem_type ept => exact ha
  | set_shell b => exact ha
  | set_shell_precond b => exact ha
  | req_precond => exact ha
  | set_space v => exact ha
  | init n => exact slot_exclusive_init a n
  | do_reinit n => exact slot_exclusive_init a n
  | do_clear => rfl
  | do_solve pairs iters => exact ha
  | do_add t2 nm m hadd =>
      unfold add_matrix at hadd
      by_cases hm : have_matrix a nm
      · simp [hm] at hadd
      · simp [hm] at hadd
        rw [← hadd]
        exact ha
  | do_eigenpair t2 i v hg =>
      unfold get_eigenpair at hg
      by_cases hi : i < get_n_converged a
      · rw [if_pos hi] at hg
        cases hp : a.eigen_solver.eigenpairs.get? i with
        | none => rw [hp] at hg; simp at hg
        | some p =>
            rw [hp] at hg
            simp at hg
            obtain ⟨-, ht⟩ := hg
            rw [← ht]
            exact ha
      · rw [if_neg hi] at hg
        simp at hg

/-- C2: in every state reachable from construction through the public
operations, no operator slot (A, B, preconditioner) holds its stored and its
shell representation at the same time. -/
theorem C2_slot_exclusivity (s : EigenSystem) (h : Reachable s) :
    slot_exclusive s = true := by
  unfold Reachable at h
  induction h with
  | refl => rfl
  | tail hr hstep ih => exact slot_exclusive_step _ _ hstep ih

/-- Witness for C2 at the concrete sample state, whose reachability is
exhibited by the explicit three-step run set type / init / solve. -/
theorem C2_witness : slot_exclusive sample = true :=
  C2_slot_exclusivity sample
    (Relation.ReflTransGen.tail
      (Relation.ReflTransGen.tail
        (Relation.ReflTransGen.tail Relation.ReflTransGen.refl
          (Step.set_problem_type construction .GNHEP))
        (Step.init (set_eigenproblem_type construction .GNHEP) 2))
      (Step.do_solve
        (init_matrices (set_eigenproblem_type construction .GNHEP) 2)
        [((3, 0), [1, 0]), ((5, 0), [0, 1])] 7))
